import Mathlib

/-!
Verification development for the BRVM market-analysis repository.

The definitions below are a shallow embedding of the repository's core:
the two source adapters and the fallback loop of
src/scraper/brvm_scraper.py, and the loading / performance-analytics code
of src/scripts/create_dashboard.py.  Python floats are modelled by exact
rationals (and by reals where the code takes powers or square roots);
pandas NaN cells are modelled by Option; DataFrames are modelled by lists
of records.  Each definition carries a comment pointing at the source
lines it embeds.
-/

namespace BRVM

/-! ## Canonical price records (data model of the scraper output) -/

/-- One row of the canonical series: columns Date, Ouverture, Plus_Haut,
Plus_Bas, Cloture, Volume, Symbole.  Dates are modelled as integers (day
numbers); optional prices model cells that can be missing (None / NaN). -/
structure BaseRow where
  date : Int
  ouverture : Option ℚ
  plus_haut : Option ℚ
  plus_bas : Option ℚ
  cloture : Option ℚ
  volume : Int
  symbole : String
deriving DecidableEq, Repr

/-- One parsed element of the structured API's intraday array
(src/scraper/brvm_scraper.py line 111: the JSON records carry
date, ouverture, plus_haut, plus_bas, cloture, variation, volume). -/
structure SikaRecord where
  date : Int
  ouverture : ℚ
  plus_haut : ℚ
  plus_bas : ℚ
  cloture : ℚ
  variation : ℚ
  volume : Int
deriving DecidableEq, Repr

/-- One row of the DataFrame returned by the structured-API adapter: the
renamed columns (line 116) plus the Symbole tag added at line 133. -/
structure SikaRow where
  date : Int
  ouverture : ℚ
  plus_haut : ℚ
  plus_bas : ℚ
  cloture : ℚ
  variation : ℚ
  volume : Int
  symbole : String
deriving DecidableEq, Repr

/-- pandas sort_values on a date column, modelled as an insertion sort on
the date projection (deterministic model of the sort at lines 130 / 210
of brvm_scraper.py and line 65 of create_dashboard.py). -/
def sortByDate {α : Type} (date : α → Int) (l : List α) : List α :=
  l.insertionSort (fun a b => date a ≤ date b)

/-- Column rename (brvm_scraper.py line 116) and Symbole tag (line 133)
applied to one record of the structured API's payload. -/
def sikaToRow (symbol : String) (r : SikaRecord) : SikaRow :=
  ⟨r.date, r.ouverture, r.plus_haut, r.plus_bas, r.cloture, r.variation, r.volume, symbol⟩

/-- BRVMScraper.scrape_sika_finance (brvm_scraper.py lines 76..143) after
the HTTP and JSON layer: if the intraday array is non-empty the records
are renamed, date-sorted and tagged with the symbol; otherwise (and on
any error) an empty DataFrame is returned.  No deduplication step
appears anywhere in the function. -/
def scrape_sika_finance (symbol : String) (intraday : List SikaRecord) : List SikaRow :=
  if 0 < intraday.length then
    sortByDate SikaRow.date (intraday.map (sikaToRow symbol))
  else []

/-! ## HTML-table adapter (BRVMScraper.scrape_brvm_official) -/

/-- A numeric cell of the HTML table after strip / separator replacement
(brvm_scraper.py lines 192..196): the text may be empty, may parse as a
number, or may be non-empty and unparseable (in which case the float
conversion at lines 200..203 raises). -/
inductive NumCell
  | cellEmpty
  | num (q : ℚ)
  | malformed
deriving DecidableEq, Repr

/-- The volume cell (line 196 / 204): int conversion, empty text gives 0. -/
inductive IntCell
  | cellEmpty
  | num (n : Int)
  | malformed
deriving DecidableEq, Repr

/-- The date cell (line 191 / 199): strptime either succeeds or raises. -/
inductive DateCell
  | okDate (d : Int)
  | malformed
deriving DecidableEq, Repr

/-- One tr row of the scraped table.  A row with fewer than 6 td cells is
modelled by the short constructor (it fails the len check at line 190 and
is silently skipped); a full row carries its six cells. -/
inductive HtmlRow
  | short
  | full (date : DateCell) (opening high low closing : NumCell) (volume : IntCell)
deriving DecidableEq, Repr

/-- float(text) if text else None (lines 200..203): an empty cell becomes
a missing value, an unparseable non-empty cell raises (Except.error). -/
def parseNum : NumCell → Except Unit (Option ℚ)
  | .cellEmpty => .ok none
  | .num q => .ok (some q)
  | .malformed => .error ()

/-- int(text) if text else 0 (line 204). -/
def parseVolume : IntCell → Except Unit Int
  | .cellEmpty => .ok 0
  | .num n => .ok n
  | .malformed => .error ()

/-- datetime.strptime(date_str, day/month/year) (line 199): raises on a
malformed date. -/
def parseDate : DateCell → Except Unit Int
  | .okDate d => .ok d
  | .malformed => .error ()

/-- The body of the row loop at lines 188..206: a short row is skipped
(ok none); a full row is parsed into one record, any cell whose
conversion raises propagating as an exception. -/
def parse_row (symbol : String) : HtmlRow → Except Unit (Option BaseRow)
  | .short => .ok none
  | .full d o h l c v => do
    let date ← parseDate d
    let op ← parseNum o
    let hi ← parseNum h
    let lo ← parseNum l
    let cl ← parseNum c
    let vol ← parseVolume v
    .ok (some ⟨date, op, hi, lo, cl, vol, symbol⟩)

/-- The whole row loop (lines 187..206): the data list accumulated over
the rows, an exception in any row aborting the loop (and, through the
except handler at line 217, the whole fetch). -/
def collect_rows (symbol : String) : List HtmlRow → Except Unit (List BaseRow)
  | [] => .ok []
  | r :: rs => do
    let rec? ← parse_row symbol r
    let rest ← collect_rows symbol rs
    match rec? with
    | some x => .ok (x :: rest)
    | none => .ok rest

/-- BRVMScraper.scrape_brvm_official (brvm_scraper.py lines 145..219)
after the HTTP layer: parse the table rows; on any exception the except
handler returns an empty DataFrame (line 219); otherwise the records are
date-sorted when non-empty (lines 209..215). -/
def scrape_brvm_official (symbol : String) (rows : List HtmlRow) : List BaseRow :=
  match collect_rows symbol rows with
  | .error _ => []
  | .ok data => if data.isEmpty then [] else sortByDate BaseRow.date data

/-! ## Fallback resolver (BRVMScraper.get_all_historical_data) -/

/-- The df_combined variable of get_all_historical_data holds either an
empty DataFrame, the structured-API adapter's frame, or the HTML-table
adapter's frame (the two have different column sets in the code). -/
inductive Df
  | emptyDf
  | sika (rows : List SikaRow)
  | brvm (rows : List BaseRow)
deriving DecidableEq, Repr

/-- DataFrame.empty for the combined frame. -/
def Df.isEmptyDf : Df → Bool
  | .emptyDf => true
  | .sika rows => rows.isEmpty
  | .brvm rows => rows.isEmpty

/-- Lines 237..249 of brvm_scraper.py for one symbol: start from an empty
frame; if use_sika and the structured-API result is non-empty take it;
then, only when the combined frame is still empty and use_brvm holds, the
HTML-table adapter is invoked (modelled lazily by a thunk, as in the
code) and its result is taken when non-empty. -/
def df_combined (useSika useBrvm : Bool) (dfSika : List SikaRow)
    (dfBrvm : Unit → List BaseRow) : Df :=
  let c1 : Df := if useSika = true ∧ dfSika ≠ [] then Df.sika dfSika else Df.emptyDf
  if useBrvm = true ∧ c1.isEmptyDf = true then
    let b := dfBrvm ()
    if b ≠ [] then Df.brvm b else c1
  else c1

/-- Lines 252..257: the frame is persisted to the per-symbol file exactly
when it is non-empty; none models the warning-and-skip branch. -/
def saved_series (useSika useBrvm : Bool) (dfSika : List SikaRow)
    (dfBrvm : Unit → List BaseRow) : Option Df :=
  let c := df_combined useSika useBrvm dfSika dfBrvm
  if c.isEmptyDf = true then none else some c

/-- BRVMScraper.get_all_historical_data (lines 221..260): the loop over
the instrument universe, producing the association of symbols to the
frames written to disk; a symbol with no data is skipped and the loop
continues. -/
def get_all_historical_data (useSika useBrvm : Bool)
    (sikaSrc : String → List SikaRecord) (brvmSrc : String → List HtmlRow) :
    List String → List (String × Df)
  | [] => []
  | s :: rest =>
    match saved_series useSika useBrvm (scrape_sika_finance s (sikaSrc s))
        (fun _ => scrape_brvm_official s (brvmSrc s)) with
    | some df => (s, df) :: get_all_historical_data useSika useBrvm sikaSrc brvmSrc rest
    | none => get_all_historical_data useSika useBrvm sikaSrc brvmSrc rest

/-! ## Canonical series store (to_csv at brvm_scraper.py line 254,
load_data at create_dashboard.py lines 37..72) -/

/-- A serialized numeric CSV cell: empty text (a missing value was
written), decimal text for a number, or arbitrary text (only ever read,
never produced by save; pd.to_numeric coerces it to NaN on load). -/
inductive CsvCell
  | cellEmpty
  | num (q : ℚ)
  | text (s : String)
deriving DecidableEq, Repr

/-- One line of a per-symbol CSV file, columns as in the header
Date, Ouverture, Plus_Haut, Plus_Bas, Cloture, Volume, Symbole.  The
date and volume cells round-trip exactly; numeric text is modelled as
the exact rational it denotes. -/
structure CsvLine where
  date : Int
  ouverture : CsvCell
  plus_haut : CsvCell
  plus_bas : CsvCell
  cloture : CsvCell
  volume : Int
  symbole : String
deriving DecidableEq, Repr

/-- Serialization of one optional price by to_csv: None becomes an empty
cell, a number becomes its decimal text. -/
def cellOfOpt : Option ℚ → CsvCell
  | none => .cellEmpty
  | some q => .num q

/-- df_combined.to_csv(output_path, index=False) (brvm_scraper.py line
254) restricted to the canonical column set: one CSV line per record, in
order. -/
def save_series_file (rows : List BaseRow) : List CsvLine :=
  rows.map (fun r =>
    ⟨r.date, cellOfOpt r.ouverture, cellOfOpt r.plus_haut, cellOfOpt r.plus_bas,
      cellOfOpt r.cloture, r.volume, r.symbole⟩)

/-- pd.to_numeric(col, errors=coerce) (create_dashboard.py line 62): a
valid number survives, anything else becomes missing. -/
def coerceCell : CsvCell → Option ℚ
  | .cellEmpty => none
  | .num q => some q
  | .text _ => none

/-- The per-file body of load_data (create_dashboard.py lines 54..65):
parse dates, coerce the numeric columns, then defensively re-sort by
date. -/
def load_series_file (lines : List CsvLine) : List BaseRow :=
  sortByDate BaseRow.date
    (lines.map (fun r =>
      ⟨r.date, coerceCell r.ouverture, coerceCell r.plus_haut, coerceCell r.plus_bas,
        coerceCell r.cloture, r.volume, r.symbole⟩))

/-! ## Performance analytics engine (calculate_performance,
create_dashboard.py lines 74..128).  A pandas Series of floats with NaN
entries is modelled as a list of optional rationals; scalar NaN results
are modelled by Option. -/

/-- Lift of a binary operation to NaN-propagating cells. -/
def omap2 (f : ℚ → ℚ → ℚ) : Option ℚ → Option ℚ → Option ℚ
  | some a, some b => some (f a b)
  | _, _ => none

/-- pandas forward fill, used implicitly by pct_change's default
fill_method: each missing entry is replaced by the last value seen. -/
def ffill (last : Option ℚ) : List (Option ℚ) → List (Option ℚ)
  | [] => []
  | none :: rest => last :: ffill last rest
  | some x :: rest => some x :: ffill (some x) rest

/-- Series.pct_change (create_dashboard.py line 80): entry 0 is NaN, and
entry i (i at least 1) is filled[i]/filled[i-1] - 1 over the forward
filled series. -/
def pct_change (closes : List (Option ℚ)) : List (Option ℚ) :=
  match closes with
  | [] => []
  | _ :: _ =>
    let filled := ffill none closes
    none :: List.zipWith (omap2 (fun p c => c / p - 1)) filled filled.tail

/-- Series.cumprod with its default NaN skipping (line 110): the running
product over the valid entries, NaN entries staying NaN without
resetting the product. -/
def cumprodGo (acc : ℚ) : List (Option ℚ) → List (Option ℚ)
  | [] => []
  | none :: rest => none :: cumprodGo acc rest
  | some x :: rest => some (acc * x) :: cumprodGo (acc * x) rest

/-- Series.cummax with NaN skipping (line 111). -/
def cummaxGo (cur : Option ℚ) : List (Option ℚ) → List (Option ℚ)
  | [] => []
  | none :: rest => none :: cummaxGo cur rest
  | some x :: rest =>
    let m := match cur with | none => x | some c => max c x
    some m :: cummaxGo (some m) rest

/-- Column Rendement (line 80). -/
def rendement_col (closes : List (Option ℚ)) : List (Option ℚ) :=
  pct_change closes

/-- Column Cumul = (1 + Rendement).cumprod() (line 110). -/
def cumul_col (closes : List (Option ℚ)) : List (Option ℚ) :=
  cumprodGo 1 ((rendement_col closes).map (Option.map (fun r => 1 + r)))

/-- Column Drawdown = Cumul / Cumul.cummax() - 1 (line 111). -/
def drawdown_col (closes : List (Option ℚ)) : List (Option ℚ) :=
  List.zipWith (omap2 (fun w m => w / m - 1)) (cumul_col closes)
    (cummaxGo none (cumul_col closes))

/-- Series.min / Series.max with NaN skipping: fold of min over the valid
entries, NaN when there is none. -/
def foldMin {α : Type} [LinearOrder α] : List α → Option α
  | [] => none
  | x :: xs => some (match foldMin xs with | none => x | some m => min x m)

/-- Fold of max over a list, see foldMin. -/
def foldMax {α : Type} [LinearOrder α] : List α → Option α
  | [] => none
  | x :: xs => some (match foldMax xs with | none => x | some m => max x m)

/-- max_drawdown = Drawdown.min() * 100 (line 112). -/
def max_drawdown (closes : List (Option ℚ)) : Option ℚ :=
  (foldMin ((drawdown_col closes).filterMap id)).map (fun d => d * 100)

/-- start_date = Date.min() (line 83). -/
def start_date (dates : List Int) : Option Int := foldMin dates

/-- end_date = Date.max() (line 84). -/
def end_date (dates : List Int) : Option Int := foldMax dates

/-- duration_days = (end_date - start_date).days (line 85). -/
def duration_days (dates : List Int) : Option Int :=
  match start_date dates, end_date dates with
  | some s, some e => some (e - s)
  | _, _ => none

/-- duration_years = duration_days / 365.25 (line 86). -/
def duration_years (dates : List Int) : Option ℚ :=
  (duration_days dates).map (fun d => (d : ℚ) / (365.25 : ℚ))

/-- initial_price = df.iloc[0][Cloture] (line 89); NaN when the first
close is missing. -/
def initial_price (closes : List (Option ℚ)) : Option ℚ := closes.head?.join

/-- final_price = df.iloc[-1][Cloture] (line 90). -/
def final_price (closes : List (Option ℚ)) : Option ℚ := (closes.getLast?).join

/-- total_return = (final_price / initial_price - 1) * 100 (line 93). -/
def total_return (closes : List (Option ℚ)) : Option ℚ :=
  omap2 (fun ip fp => (fp / ip - 1) * 100) (initial_price closes) (final_price closes)

/-- annual_return (line 96): ((final/initial) ** (1/duration_years) - 1)
* 100 when duration_years is positive, else 0.  The float power is the
real power function. -/
noncomputable def annual_return (dates : List Int) (closes : List (Option ℚ)) : Option ℝ :=
  match duration_years dates, initial_price closes, final_price closes with
  | some y, some ip, some fp =>
    some (if 0 < y then (Real.rpow ((fp : ℝ) / (ip : ℝ)) (1 / (y : ℝ)) - 1) * 100 else 0)
  | _, _, _ => none

/-- The daily returns pandas aggregates over: the valid (non-NaN) entries
of the Rendement column. -/
def valid_returns (closes : List (Option ℚ)) : List ℚ :=
  (rendement_col closes).filterMap id

/-- Series.std: the sample standard deviation (ddof = 1) of the valid
entries, NaN when fewer than two of them exist. -/
noncomputable def sample_std (xs : List ℝ) : Option ℝ :=
  if xs.length < 2 then none
  else some (Real.sqrt ((xs.map (fun x => (x - xs.sum / xs.length) ^ 2)).sum /
    ((xs.length : ℝ) - 1)))

/-- volatility = Rendement.std() * sqrt(252) * 100 (line 99). -/
noncomputable def volatility (closes : List (Option ℚ)) : Option ℝ :=
  (sample_std ((valid_returns closes).map (fun q : ℚ => (q : ℝ)))).map
    (fun s => s * Real.sqrt 252 * 100)

/-- sharpe_ratio (lines 102..103): (annual_return/100 - 0.03) /
(volatility/100) when volatility is greater than 0, else 0.  A NaN
volatility fails the comparison and also yields 0; a NaN annual return
with positive volatility propagates (none). -/
noncomputable def sharpe_ratio (dates : List Int) (closes : List (Option ℚ)) : Option ℝ :=
  match volatility closes with
  | some v =>
    if 0 < v then (annual_return dates closes).map (fun ar => (ar / 100 - 3 / 100) / (v / 100))
    else some 0
  | none => some 0

/-! ## The DataFrame mutation performed by calculate_performance -/

/-- The caller's DataFrame as seen by calculate_performance: the base
columns loaded from disk plus the three derived columns, absent until
the function adds them. -/
structure Frame where
  rows : List BaseRow
  rendement : Option (List (Option ℚ))
  cumul : Option (List (Option ℚ))
  drawdown : Option (List (Option ℚ))
deriving DecidableEq, Repr

/-- The in-place column assignments of calculate_performance (lines 80,
110, 111) together with the early return at lines 76..77: a frame with
fewer than 2 rows is returned untouched, otherwise the three derived
columns are written into the caller's frame. -/
def calculate_performance_frame (f : Frame) : Frame :=
  if f.rows.length < 2 then f
  else
    { f with
      rendement := some (rendement_col (f.rows.map BaseRow.cloture))
      cumul := some (cumul_col (f.rows.map BaseRow.cloture))
      drawdown := some (drawdown_col (f.rows.map BaseRow.cloture)) }

/-! ## Sector classifier (get_sector_classification, create_dashboard.py
lines 130..147, and the lookup lambda at lines 178..179) -/

/-- The static sectors dictionary (lines 132..139). -/
def sectors : List (String × List String) :=
  [("Banque", ["SGBCI", "BOA", "ECOBANK", "SIB", "NSIA", "BICI", "BDM", "CORIS"]),
   ("Agro-industrie", ["SOGB", "SAPH", "PALC", "SIFCA", "SICOR", "SUCRIVOIRE"]),
   ("Distribution", ["CFAO", "BERNABE", "VIVO", "TOTAL"]),
   ("Services publics", ["SODECI", "CIE", "SONATEL", "ONATEL"]),
   ("Industrie", ["NESTLE", "SOLIBRA", "SMB", "UNIWAX", "FILTISAC", "AIR"]),
   ("Transport", ["BOLLORE", "MOVIS", "SETAO"])]

/-- get_sector_classification (lines 141..147): the symbol-to-sector
association built from the sectors dictionary. -/
def get_sector_classification : List (String × String) :=
  (sectors.map (fun p => p.2.map (fun s => (s, p.1)))).flatten

/-- Python str.startswith, modelled on the character sequences of the
two strings. -/
def startsWithStr (x p : String) : Bool := p.data.isPrefixOf x.data

/-- The classification lambda (line 179):
symbol_to_sector.get(x, Indice if x.startswith(BRVM) else Autres). -/
def classify_symbol (x : String) : String :=
  match get_sector_classification.lookup x with
  | some v => v
  | none => if startsWithStr x "BRVM" then "Indice" else "Autres"

/-! ## Spec-side formulation of the drawdown algorithm (section 4.5 step 8
of the specification), stated on plain rational sequences for comparison
with the embedded pandas pipeline. -/

/-- Daily return at index i (i at least 1) = close[i]/close[i-1] - 1. -/
def daily_returns (closes : List ℚ) : List ℚ :=
  List.zipWith (fun p c => c / p - 1) closes closes.tail

/-- Running product with a start accumulator. -/
def scanMulFrom (acc : ℚ) : List ℚ → List ℚ
  | [] => []
  | x :: xs => (acc * x) :: scanMulFrom (acc * x) xs

/-- The cumulative wealth index of the spec: cumulative product of
(1 + daily return), starting from the first valid return. -/
def wealth_index (rets : List ℚ) : List ℚ :=
  scanMulFrom 1 (rets.map (fun r => 1 + r))

/-- Running maximum with a seed. -/
def runMaxFrom (m : ℚ) : List ℚ → List ℚ
  | [] => []
  | x :: xs => (max m x) :: runMaxFrom (max m x) xs

/-- The running maximum of a sequence. -/
def running_max : List ℚ → List ℚ
  | [] => []
  | x :: xs => x :: runMaxFrom x xs

/-- Drawdown at each point = cumulative index / running maximum - 1. -/
def spec_drawdowns (closes : List ℚ) : List ℚ :=
  List.zipWith (fun w m => w / m - 1) (wealth_index (daily_returns closes))
    (running_max (wealth_index (daily_returns closes)))

/-- Max drawdown percentage of the spec: the most negative drawdown
times 100. -/
def spec_max_drawdown (closes : List ℚ) : Option ℚ :=
  (foldMin (spec_drawdowns closes)).map (fun d => d * 100)

/-! ## Helper instances and lemmas -/

instance : IsTotal SikaRow (fun a b => a.date ≤ b.date) :=
  ⟨fun a b => Int.le_total a.date b.date⟩

instance : IsTrans SikaRow (fun a b => a.date ≤ b.date) :=
  ⟨fun _ _ _ hab hbc => le_trans hab hbc⟩

instance : IsTotal BaseRow (fun a b => a.date ≤ b.date) :=
  ⟨fun a b => Int.le_total a.date b.date⟩

instance : IsTrans BaseRow (fun a b => a.date ≤ b.date) :=
  ⟨fun _ _ _ hab hbc => le_trans hab hbc⟩

/-- The record salvaged from one HTML row when no cell of it raises:
none for a short (skipped) row, the parsed record otherwise. -/
def row_salvage (symbol : String) (r : HtmlRow) : Option BaseRow :=
  match parse_row symbol r with
  | .ok o => o
  | .error _ => none

lemma collect_rows_ok (symbol : String) (rows : List HtmlRow)
    (h : ∀ r ∈ rows, ∃ o, parse_row symbol r = .ok o) :
    collect_rows symbol rows = .ok (rows.filterMap (row_salvage symbol)) := by
  induction rows with
  | nil => rfl
  | cons r rs ih =>
    obtain ⟨o, ho⟩ := h r (List.mem_cons_self r rs)
    have hrest := ih (fun x hx => h x (List.mem_cons_of_mem _ hx))
    simp only [collect_rows, ho, hrest, List.filterMap_cons, row_salvage]
    cases o <;> rfl

lemma collect_rows_error (symbol : String) (rows : List HtmlRow) (r : HtmlRow)
    (hr : r ∈ rows) (he : ∃ e, parse_row symbol r = .error e) :
    ∃ e, collect_rows symbol rows = .error e := by
  induction rows with
  | nil => cases hr
  | cons x xs ih =>
    rcases List.mem_cons.mp hr with hx | hx
    · subst hx
      obtain ⟨e, he⟩ := he
      exact ⟨e, by simp only [collect_rows, he]; rfl⟩
    · cases hpx : parse_row symbol x with
      | error e => exact ⟨e, by simp only [collect_rows, hpx]; rfl⟩
      | ok o =>
        obtain ⟨e, hrest⟩ := ih hx
        refine ⟨e, ?_⟩
        simp only [collect_rows, hpx, hrest]
        cases o <;> rfl

/-! ## Claim theorems -/

/-- Claim C9 (counterexample): the sector classifier does not return the
label "Public Services" for SONATEL; the code's labels are French. -/
theorem classify_label_language : classify_symbol "SONATEL" ≠ "Public Services" := by
  decide

/-- Claim C9 (amended): the sector classifier is a pure lookup that maps
SONATEL to "Services publics", the out-of-map index symbol BRVM-30 to
"Indice", and the unrecognized UNKNOWNCO to "Autres" (the code's labels
are the French counterparts of the names used in the specification). -/
theorem classify_values :
    classify_symbol "SONATEL" = "Services publics"
    ∧ classify_symbol "BRVM-30" = "Indice"
    ∧ classify_symbol "UNKNOWNCO" = "Autres" := by
  refine ⟨by decide, by decide, by decide⟩

/-- Claim C4 (counterexample): fed two records carrying the same date,
the structured-API adapter returns both of them, not exactly one; no
duplicate-date resolution is applied. -/
theorem duplicate_dates_not_deduplicated :
    ¬ ((scrape_sika_finance "SNTS"
        [⟨5, 1, 1, 1, 10, 0, 3⟩, ⟨5, 1, 1, 1, 20, 0, 4⟩]).countP
          (fun r => r.date == 5)) = 1 := by
  decide

/-- Claim C4 (amended): neither adapter applies any duplicate-date
resolution.  The structured-API adapter keeps every upstream record: on
a non-empty payload its output has the same length as the input, every
date occurs in the output exactly as often as upstream, and the output
is sorted by date.  The HTML-table adapter, on a page whose rows all
parse (a malformed row empties the fetch and a short row is skipped, as
settled for C5), returns the salvaged records with their per-date
multiplicity intact; in particular two well-formed rows carrying the
same date are both returned, never collapsed to one. -/
theorem adapters_retain_duplicate_dates :
    (∀ (symbol : String) (intraday : List SikaRecord), intraday ≠ [] →
      (scrape_sika_finance symbol intraday).length = intraday.length
      ∧ (∀ d : Int, (scrape_sika_finance symbol intraday).countP (fun r => r.date == d)
          = intraday.countP (fun r => r.date == d))
      ∧ List.Sorted (fun a b => a.date ≤ b.date) (scrape_sika_finance symbol intraday))
    ∧ (∀ (symbol : String) (rows : List HtmlRow),
      (∀ r ∈ rows, ∃ o, parse_row symbol r = .ok o) →
      ∀ d : Int, (scrape_brvm_official symbol rows).countP (fun r => r.date == d)
        = (rows.filterMap (row_salvage symbol)).countP (fun r => r.date == d))
    ∧ (scrape_brvm_official "SNTS"
        [.full (.okDate 5) (.num 10) (.num 12) (.num 9) (.num 11) (.num 100),
         .full (.okDate 5) (.num 20) (.num 22) (.num 19) (.num 21) (.num 200)]).countP
        (fun r => r.date == 5) = 2 := by
  refine ⟨?_, ?_, ?_⟩
  · intro symbol intraday hne
    have hpos : 0 < intraday.length := List.length_pos.mpr hne
    refine ⟨?_, ?_, ?_⟩
    · simp [scrape_sika_finance, hpos, sortByDate]
    · intro d
      simp only [scrape_sika_finance, if_pos hpos, sortByDate]
      rw [(List.perm_insertionSort _ _).countP_eq, List.countP_map]
      rfl
    · simp only [scrape_sika_finance, if_pos hpos, sortByDate]
      exact List.sorted_insertionSort _ _
  · intro symbol rows hok d
    have hc := collect_rows_ok symbol rows hok
    simp only [scrape_brvm_official, hc]
    cases hsal : rows.filterMap (row_salvage symbol) with
    | nil => simp [hsal]
    | cons x xs =>
      simp only [List.isEmpty_cons, sortByDate]
      exact (List.perm_insertionSort _ _).countP_eq _
  · decide

/-- Claim C4 (witness). -/
theorem adapters_retain_duplicate_dates_witness :
    (scrape_sika_finance "SNTS" [⟨5, 1, 1, 1, 10, 0, 3⟩, ⟨5, 1, 1, 1, 20, 0, 4⟩]).length = 2
    ∧ (scrape_brvm_official "SNTS"
        [.full (.okDate 5) (.num 10) (.num 12) (.num 9) (.num 11) (.num 100),
         .full (.okDate 5) (.num 20) (.num 22) (.num 19) (.num 21) (.num 200)]).countP
        (fun r => r.date == 5)
      = ([(.full (.okDate 5) (.num 10) (.num 12) (.num 9) (.num 11) (.num 100) : HtmlRow),
          .full (.okDate 5) (.num 20) (.num 22) (.num 19) (.num 21) (.num 200)].filterMap
          (row_salvage "SNTS")).countP (fun r => r.date == 5) :=
  ⟨(adapters_retain_duplicate_dates.1 "SNTS" _ (by decide)).1,
   adapters_retain_duplicate_dates.2.1 "SNTS" _
     (by
       intro r hr
       rcases List.mem_cons.mp hr with rfl | h
       · exact ⟨some ⟨5, some 10, some 12, some 9, some 11, 100, "SNTS"⟩, rfl⟩
       · rcases List.mem_singleton.mp h with rfl
         exact ⟨some ⟨5, some 20, some 22, some 19, some 21, 200, "SNTS"⟩, rfl⟩) 5⟩

/-- Claim C5 (counterexample): a page with one well-formed row and one
row whose closing cell is unparseable comes back as an empty series; the
good row is not salvaged. -/
theorem bad_row_empties_fetch :
    scrape_brvm_official "SNTS"
      [.full (.okDate 3) (.num 10) (.num 12) (.num 9) (.num 11) (.num 100),
       .full (.okDate 4) (.num 10) (.num 12) (.num 9) .malformed (.num 100)] = []
    ∧ scrape_brvm_official "SNTS"
      [.full (.okDate 3) (.num 10) (.num 12) (.num 9) (.num 11) (.num 100)]
      = [⟨3, some 10, some 12, some 9, some 11, 100, "SNTS"⟩] := by
  exact ⟨rfl, rfl⟩

/-- Claim C5 (amended): the HTML-table adapter's per-row recovery only
covers rows with fewer than 6 cells, which are skipped individually;
a data row whose date or numeric cell fails to parse raises inside the
adapter's try block, so one such row makes the whole fetch return an
empty series, discarding the rows that did parse.  When every row
parses, the salvaged records are returned sorted by date. -/
theorem row_parse_failure_policy :
    (∀ (symbol : String) (rows : List HtmlRow) (r : HtmlRow), r ∈ rows →
      (∃ e, parse_row symbol r = .error e) → scrape_brvm_official symbol rows = [])
    ∧ (∀ (symbol : String) (rows : List HtmlRow),
      (∀ r ∈ rows, ∃ o, parse_row symbol r = .ok o) →
      scrape_brvm_official symbol rows =
        if (rows.filterMap (row_salvage symbol)).isEmpty then []
        else sortByDate BaseRow.date (rows.filterMap (row_salvage symbol))) := by
  constructor
  · intro symbol rows r hr he
    obtain ⟨e, hce⟩ := collect_rows_error symbol rows r hr he
    simp [scrape_brvm_official, hce]
  · intro symbol rows h
    simp [scrape_brvm_official, collect_rows_ok symbol rows h]

/-- Claim C5 (witness). -/
theorem row_parse_failure_policy_witness :
    scrape_brvm_official "SNTS"
      [.full (.okDate 3) (.num 10) (.num 12) (.num 9) (.num 11) (.num 100),
       .full (.okDate 4) (.num 10) (.num 12) (.num 9) .malformed (.num 100)] = [] :=
  row_parse_failure_policy.1 "SNTS" _
    (.full (.okDate 4) (.num 10) (.num 12) (.num 9) .malformed (.num 100))
    (by decide) ⟨(), rfl⟩

/-- Claim C6 (counterexample): a row whose closing cell is empty is not
dropped; the returned series contains a record with a missing closing
price. -/
theorem missing_close_not_dropped :
    ¬ (∀ r ∈ scrape_brvm_official "SNTS"
        [.full (.okDate 7) (.num 5) (.num 6) (.num 4) .cellEmpty (.num 9)],
        r.cloture.isSome = true) := by
  decide

/-- The numeric cell whose parse yields a given optional price. -/
def NumCell.ofOpt : Option ℚ → NumCell
  | none => .cellEmpty
  | some q => .num q

/-- Claim C6 (amended): an empty closing cell makes the record's closing
price missing but the record is kept: the HTML-table adapter returns it
with cloture = none, exactly like an absent opening, high or low price.
No adapter drops records for a missing closing price. -/
theorem missing_close_retained (symbol : String) (dt : Int) (o h l : Option ℚ) (vol : Int) :
    scrape_brvm_official symbol
      [.full (.okDate dt) (.ofOpt o) (.ofOpt h) (.ofOpt l) .cellEmpty (.num vol)]
      = [⟨dt, o, h, l, none, vol, symbol⟩] := by
  cases o <;> cases h <;> cases l <;> rfl

/-- Claim C1: the fallback resolver tries the structured-API adapter
first and persists exactly its result when non-empty; only when it is
empty is the HTML-table adapter consulted, whose non-empty result is
then persisted exactly; when both are empty nothing is persisted for the
symbol; and the loop over the universe of symbols skips such a symbol
and continues, the persisted files being exactly the non-empty resolved
frames in symbol order. -/
theorem fallback_resolver_policy :
    (∀ (dfSika : List SikaRow) (dfBrvm : Unit → List BaseRow), dfSika ≠ [] →
      saved_series true true dfSika dfBrvm = some (Df.sika dfSika))
    ∧ (∀ (dfSika : List SikaRow) (dfBrvm : Unit → List BaseRow),
      dfSika = [] → dfBrvm () ≠ [] →
      saved_series true true dfSika dfBrvm = some (Df.brvm (dfBrvm ())))
    ∧ (∀ (dfSika : List SikaRow) (dfBrvm : Unit → List BaseRow),
      dfSika = [] → dfBrvm () = [] →
      saved_series true true dfSika dfBrvm = none)
    ∧ (∀ (sikaSrc : String → List SikaRecord) (brvmSrc : String → List HtmlRow)
        (s : String) (rest : List String),
      saved_series true true (scrape_sika_finance s (sikaSrc s))
        (fun _ => scrape_brvm_official s (brvmSrc s)) = none →
      get_all_historical_data true true sikaSrc brvmSrc (s :: rest)
        = get_all_historical_data true true sikaSrc brvmSrc rest)
    ∧ (∀ (sikaSrc : String → List SikaRecord) (brvmSrc : String → List HtmlRow)
        (symbols : List String),
      get_all_historical_data true true sikaSrc brvmSrc symbols
        = symbols.filterMap (fun s =>
            (saved_series true true (scrape_sika_finance s (sikaSrc s))
              (fun _ => scrape_brvm_official s (brvmSrc s))).map (fun df => (s, df)))) := by
  refine ⟨?_, ?_, ?_, ?_, ?_⟩
  · intro dfSika dfBrvm h
    cases dfSika with
    | nil => exact absurd rfl h
    | cons a as => rfl
  · intro dfSika dfBrvm h1 h2
    subst h1
    have hb : (dfBrvm ()).isEmpty = false := by
      cases hb : dfBrvm ()
      · exact absurd hb h2
      · rfl
    simp [saved_series, df_combined, Df.isEmptyDf, h2, hb]
  · intro dfSika dfBrvm h1 h2
    subst h1
    simp [saved_series, df_combined, Df.isEmptyDf, h2]
  · intro sikaSrc brvmSrc s rest h
    simp [get_all_historical_data, h]
  · intro sikaSrc brvmSrc symbols
    induction symbols with
    | nil => rfl
    | cons s rest ih =>
      cases hs : saved_series true true (scrape_sika_finance s (sikaSrc s))
          (fun _ => scrape_brvm_official s (brvmSrc s)) with
      | none => simp [get_all_historical_data, hs, List.filterMap_cons, ih]
      | some df => simp [get_all_historical_data, hs, List.filterMap_cons, ih]

/-- Claim C1 (witness): with an empty structured-API result and a
one-record HTML result, the HTML frame is persisted verbatim. -/
theorem fallback_resolver_policy_witness :
    saved_series true true []
      (fun _ => [⟨3, some 10, some 12, some 9, some 11, 100, "SNTS"⟩])
      = some (Df.brvm [⟨3, some 10, some 12, some 9, some 11, 100, "SNTS"⟩]) :=
  fallback_resolver_policy.2.1 []
    (fun _ => [⟨3, some 10, some 12, some 9, some 11, 100, "SNTS"⟩]) rfl (by decide)

/-- Claim C10: on any frame with at least two rows, calculate_performance
writes the derived columns Rendement, Cumul and Drawdown into the
caller's frame while leaving the base columns (Date, Ouverture,
Plus_Haut, Plus_Bas, Cloture, Volume, Symbole) untouched; in particular
a frame that did not yet carry a Rendement column is really mutated. -/
theorem calculate_performance_mutates_frame (f : Frame) (h2 : 2 ≤ f.rows.length) :
    (calculate_performance_frame f).rows = f.rows
    ∧ (calculate_performance_frame f).rendement
        = some (rendement_col (f.rows.map BaseRow.cloture))
    ∧ (calculate_performance_frame f).cumul
        = some (cumul_col (f.rows.map BaseRow.cloture))
    ∧ (calculate_performance_frame f).drawdown
        = some (drawdown_col (f.rows.map BaseRow.cloture))
    ∧ (f.rendement = none → calculate_performance_frame f ≠ f) := by
  have hn : ¬ f.rows.length < 2 := by omega
  refine ⟨by simp [calculate_performance_frame, hn], by simp [calculate_performance_frame, hn],
    by simp [calculate_performance_frame, hn], by simp [calculate_performance_frame, hn], ?_⟩
  intro h0 heq
  have hr := congrArg Frame.rendement heq
  simp [calculate_performance_frame, hn, h0] at hr

/-- Claim C10 (witness). -/
theorem calculate_performance_mutates_frame_witness :
    (calculate_performance_frame
        ⟨[⟨0, none, none, none, some 100, 0, "SNTS"⟩,
          ⟨1, none, none, none, some 101, 0, "SNTS"⟩], none, none, none⟩).rows
      = [⟨0, none, none, none, some 100, 0, "SNTS"⟩,
         ⟨1, none, none, none, some 101, 0, "SNTS"⟩]
    ∧ calculate_performance_frame
        ⟨[⟨0, none, none, none, some 100, 0, "SNTS"⟩,
          ⟨1, none, none, none, some 101, 0, "SNTS"⟩], none, none, none⟩
      ≠ ⟨[⟨0, none, none, none, some 100, 0, "SNTS"⟩,
          ⟨1, none, none, none, some 101, 0, "SNTS"⟩], none, none, none⟩ :=
  ⟨(calculate_performance_mutates_frame _ (by decide)).1,
   (calculate_performance_mutates_frame _ (by decide)).2.2.2.2 rfl⟩

lemma coerceCell_cellOfOpt (x : Option ℚ) : coerceCell (cellOfOpt x) = x := by
  cases x <;> rfl

/-- Claim C8: loading the per-symbol file written for a canonical series
(date-sorted records) reproduces the same ordered record sequence —
serialization of each field is exact in this model, which is the
"modulo floating-point round-trip" allowance of the specification. -/
theorem load_save_roundtrip (S : List BaseRow)
    (hsorted : List.Sorted (fun a b => a.date ≤ b.date) S)
    (_hclose : ∀ r ∈ S, r.cloture.isSome = true) :
    load_series_file (save_series_file S) = S := by
  unfold load_series_file save_series_file
  rw [List.map_map]
  have hmap : S.map (fun r : BaseRow =>
      (⟨r.date, coerceCell (cellOfOpt r.ouverture), coerceCell (cellOfOpt r.plus_haut),
        coerceCell (cellOfOpt r.plus_bas), coerceCell (cellOfOpt r.cloture), r.volume,
        r.symbole⟩ : BaseRow)) = S := by
    have hid : ∀ r : BaseRow,
        (⟨r.date, coerceCell (cellOfOpt r.ouverture), coerceCell (cellOfOpt r.plus_haut),
          coerceCell (cellOfOpt r.plus_bas), coerceCell (cellOfOpt r.cloture), r.volume,
          r.symbole⟩ : BaseRow) = r := by
      intro r
      cases r
      simp [coerceCell_cellOfOpt]
    calc S.map _ = S.map id := by
          apply List.map_congr_left
          intro r _
          exact hid r
      _ = S := List.map_id S
  rw [show ((fun r : CsvLine => (⟨r.date, coerceCell r.ouverture, coerceCell r.plus_haut,
        coerceCell r.plus_bas, coerceCell r.cloture, r.volume, r.symbole⟩ : BaseRow)) ∘
      (fun r : BaseRow => (⟨r.date, cellOfOpt r.ouverture, cellOfOpt r.plus_haut,
        cellOfOpt r.plus_bas, cellOfOpt r.cloture, r.volume, r.symbole⟩ : CsvLine)))
      = fun r : BaseRow =>
      (⟨r.date, coerceCell (cellOfOpt r.ouverture), coerceCell (cellOfOpt r.plus_haut),
        coerceCell (cellOfOpt r.plus_bas), coerceCell (cellOfOpt r.cloture), r.volume,
        r.symbole⟩ : BaseRow) from rfl]
  rw [hmap]
  exact List.Sorted.insertionSort_eq hsorted

/-- Claim C8 (witness). -/
theorem load_save_roundtrip_witness :
    load_series_file (save_series_file
      [⟨0, some 10, some 12, some 9, some 11, 100, "SNTS"⟩,
       ⟨2, none, none, none, some 12, 50, "SNTS"⟩])
      = [⟨0, some 10, some 12, some 9, some 11, 100, "SNTS"⟩,
         ⟨2, none, none, none, some 12, 50, "SNTS"⟩] :=
  load_save_roundtrip _ (by decide) (by decide)

/-! ## Lemmas relating the NaN-aware pandas pipeline to the plain
rational pipeline, on a series whose closes are all present -/

lemma ffill_map_some (l : List ℚ) (last : Option ℚ) :
    ffill last (l.map some) = l.map some := by
  induction l generalizing last with
  | nil => rfl
  | cons x xs ih => simp [ffill, ih]

lemma zipWith_omap2_map_some (f : ℚ → ℚ → ℚ) (a b : List ℚ) :
    List.zipWith (omap2 f) (a.map some) (b.map some) = (List.zipWith f a b).map some := by
  induction a generalizing b with
  | nil => rfl
  | cons x xs ih =>
    cases b with
    | nil => rfl
    | cons y ys => simp [omap2, ih]

lemma pct_change_map_some (c : ℚ) (cs : List ℚ) :
    pct_change ((c :: cs).map some) = none :: (daily_returns (c :: cs)).map some := by
  simp only [pct_change, List.map_cons, daily_returns]
  rw [show ffill none (some c :: cs.map some) = some c :: ffill (some c) (cs.map some) from rfl,
    ffill_map_some]
  rw [show (some c :: cs.map some).tail = cs.map some from rfl]
  rw [show (some c :: cs.map some) = ((c :: cs).map some) from rfl]
  rw [zipWith_omap2_map_some]
  rfl

lemma cumprodGo_map_some (l : List ℚ) (acc : ℚ) :
    cumprodGo acc (l.map some) = (scanMulFrom acc l).map some := by
  induction l generalizing acc with
  | nil => rfl
  | cons x xs ih => simp [cumprodGo, scanMulFrom, ih]

lemma cummaxGo_some_map_some (l : List ℚ) (m : ℚ) :
    cummaxGo (some m) (l.map some) = (runMaxFrom m l).map some := by
  induction l generalizing m with
  | nil => rfl
  | cons x xs ih => simp [cummaxGo, runMaxFrom, ih]

lemma cummaxGo_none_map_some (l : List ℚ) :
    cummaxGo none (l.map some) = (running_max l).map some := by
  cases l with
  | nil => rfl
  | cons x xs =>
    simp only [List.map_cons, cummaxGo, running_max]
    rw [cummaxGo_some_map_some]

lemma filterMap_id_map_some (l : List ℚ) : (l.map some).filterMap id = l := by
  induction l with
  | nil => rfl
  | cons x xs ih => simp [List.filterMap_cons, ih]

/-- On an all-present series the Cumul column is NaN at index 0 followed
by the spec's wealth index. -/
lemma cumul_col_map_some (c : ℚ) (cs : List ℚ) :
    cumul_col ((c :: cs).map some)
      = none :: (wealth_index (daily_returns (c :: cs))).map some := by
  unfold cumul_col rendement_col
  rw [pct_change_map_some]
  simp only [List.map_cons, wealth_index]
  rw [show Option.map (fun r : ℚ => 1 + r) none = (none : Option ℚ) from rfl]
  rw [show ((daily_returns (c :: cs)).map some).map (Option.map fun r => 1 + r)
      = ((daily_returns (c :: cs)).map (fun r => 1 + r)).map some by
    rw [List.map_map, List.map_map]; rfl]
  rw [show cumprodGo 1 (none :: ((daily_returns (c :: cs)).map (fun r => 1 + r)).map some)
      = none :: cumprodGo 1 (((daily_returns (c :: cs)).map (fun r => 1 + r)).map some) from rfl]
  rw [cumprodGo_map_some]

/-- On an all-present series the Drawdown column is NaN at index 0
followed by the spec's drawdown sequence. -/
lemma drawdown_col_map_some (c : ℚ) (cs : List ℚ) :
    drawdown_col ((c :: cs).map some)
      = none :: (spec_drawdowns (c :: cs)).map some := by
  unfold drawdown_col spec_drawdowns
  rw [cumul_col_map_some]
  rw [show cummaxGo none (none :: (wealth_index (daily_returns (c :: cs))).map some)
      = none :: cummaxGo none ((wealth_index (daily_returns (c :: cs))).map some) from rfl]
  rw [cummaxGo_none_map_some]
  rw [show List.zipWith (omap2 fun w m => w / m - 1)
      (none :: (wealth_index (daily_returns (c :: cs))).map some)
      (none :: (running_max (wealth_index (daily_returns (c :: cs)))).map some)
      = none :: List.zipWith (omap2 fun w m => w / m - 1)
        ((wealth_index (daily_returns (c :: cs))).map some)
        ((running_max (wealth_index (daily_returns (c :: cs)))).map some) from rfl]
  rw [zipWith_omap2_map_some]

/-- Claim C2: on every series whose closes are all present, the code's
max drawdown equals the spec's: cumulative product of one plus each
daily return starting from the first valid return, running maximum,
drawdown = index over running maximum minus one, and the most negative
drawdown times 100; and the three-record series 100, 150, 90 yields
exactly -40 percent. -/
theorem max_drawdown_matches_spec :
    (∀ closes : List ℚ, max_drawdown (closes.map some) = spec_max_drawdown closes)
    ∧ max_drawdown [some 100, some 150, some 90] = some (-40) := by
  constructor
  · intro closes
    cases closes with
    | nil => rfl
    | cons c cs =>
      unfold max_drawdown spec_max_drawdown
      rw [drawdown_col_map_some]
      rw [show (none :: (spec_drawdowns (c :: cs)).map some).filterMap id
          = ((spec_drawdowns (c :: cs)).map some).filterMap id from rfl]
      rw [filterMap_id_map_some]
  · show max_drawdown ([(100 : ℚ), 150, 90].map some) = some (-40)
    have h := drawdown_col_map_some (100 : ℚ) [150, 90]
    unfold max_drawdown
    rw [h, show (none :: (spec_drawdowns [(100 : ℚ), 150, 90]).map some).filterMap id
      = ((spec_drawdowns [(100 : ℚ), 150, 90]).map some).filterMap id from rfl,
      filterMap_id_map_some]
    have hdd : spec_drawdowns [(100 : ℚ), 150, 90] = [0, -2/5] := by
      unfold spec_drawdowns wealth_index daily_returns
      norm_num [scanMulFrom, running_max, runMaxFrom]
    rw [hdd]
    simp [foldMin]
    norm_num

/-! ## Min and max of a date-sorted column -/

lemma foldMin_sorted {α : Type} [LinearOrder α] :
    ∀ l : List α, l.Sorted (· ≤ ·) → foldMin l = l.head?
  | [], _ => rfl
  | x :: xs, h => by
    have ih := foldMin_sorted xs h.of_cons
    cases xs with
    | nil => rfl
    | cons y ys =>
      have hxy : x ≤ y := List.rel_of_sorted_cons h y (List.mem_cons_self y ys)
      have hfold : foldMin (x :: y :: ys) = some (min x y) := by
        show some (match foldMin (y :: ys) with | none => x | some m => min x m)
          = some (min x y)
        rw [ih]
        rfl
      rw [hfold, min_eq_left hxy]
      rfl

lemma foldMax_sorted {α : Type} [LinearOrder α] :
    ∀ l : List α, l.Sorted (· ≤ ·) → foldMax l = l.getLast?
  | [], _ => rfl
  | x :: xs, h => by
    have ih := foldMax_sorted xs h.of_cons
    cases xs with
    | nil => rfl
    | cons y ys =>
      have hne : (y :: ys) ≠ [] := List.cons_ne_nil y ys
      have hlast : (y :: ys).getLast? = some ((y :: ys).getLast hne) :=
        List.getLast?_eq_getLast _ hne
      have hmem : (y :: ys).getLast hne ∈ y :: ys := List.getLast_mem hne
      have hx : x ≤ (y :: ys).getLast hne := List.rel_of_sorted_cons h _ hmem
      have hfold : foldMax (x :: y :: ys) = some (max x ((y :: ys).getLast hne)) := by
        show some (match foldMax (y :: ys) with | none => x | some m => max x m)
          = some (max x ((y :: ys).getLast hne))
        rw [ih, hlast]
      rw [hfold, max_eq_right hx, List.getLast?_cons_cons, hlast]

/-- Claim C3: on a canonical (date-sorted) series, the engine's duration
in years is (last date - first date) / 365.25, the total return percent
is (last close / first close - 1) * 100, the annualized return percent
is ((last close / first close) to the power 1/years, minus 1) * 100 when
the duration is positive, and 0 when the last date equals the first. -/
theorem duration_and_returns_formulas (dates : List Int) (closes : List ℚ)
    (hsorted : dates.Sorted (· ≤ ·)) (hne : dates ≠ []) (hc : closes ≠ []) :
    duration_years dates
      = some (((dates.getLast hne - dates.head hne : ℤ) : ℚ) / (365.25 : ℚ))
    ∧ total_return (closes.map some)
      = some ((closes.getLast hc / closes.head hc - 1) * 100)
    ∧ (dates.head hne < dates.getLast hne →
        annual_return dates (closes.map some)
          = some ((Real.rpow ((closes.getLast hc : ℝ) / (closes.head hc : ℝ))
              (1 / ((((dates.getLast hne - dates.head hne : ℤ) : ℚ) / (365.25 : ℚ) : ℚ) : ℝ))
              - 1) * 100))
    ∧ (dates.getLast hne = dates.head hne →
        annual_return dates (closes.map some) = some 0) := by
  have hstart : start_date dates = some (dates.head hne) := by
    rw [show start_date dates = foldMin dates from rfl, foldMin_sorted dates hsorted,
      List.head?_eq_head hne]
  have hend : end_date dates = some (dates.getLast hne) := by
    rw [show end_date dates = foldMax dates from rfl, foldMax_sorted dates hsorted,
      List.getLast?_eq_getLast dates hne]
  have hdy : duration_years dates
      = some (((dates.getLast hne - dates.head hne : ℤ) : ℚ) / (365.25 : ℚ)) := by
    simp [duration_years, duration_days, hstart, hend]
  have hip : initial_price (closes.map some) = some (closes.head hc) := by
    simp [initial_price, List.head?_map, List.head?_eq_head hc]
  have hfp : final_price (closes.map some) = some (closes.getLast hc) := by
    simp [final_price, List.getLast?_map, List.getLast?_eq_getLast closes hc]
  refine ⟨hdy, ?_, ?_, ?_⟩
  · simp [total_return, hip, hfp, omap2]
  · intro hlt
    have hypos : (0 : ℚ) < ((dates.getLast hne - dates.head hne : ℤ) : ℚ) / (365.25 : ℚ) := by
      apply div_pos
      · exact_mod_cast Int.sub_pos.mpr hlt
      · norm_num
    simp only [annual_return, hdy, hip, hfp]
    rw [if_pos hypos]
  · intro heq
    have hyzero : ((dates.getLast hne - dates.head hne : ℤ) : ℚ) / (365.25 : ℚ) = 0 := by
      rw [heq]
      simp
    simp only [annual_return, hdy, hip, hfp, hyzero]
    norm_num

/-- Claim C3 (witness). -/
theorem duration_and_returns_formulas_witness :
    duration_years [(0 : Int), 730]
      = some ((((730 : Int) - (0 : Int) : ℤ) : ℚ) / (365.25 : ℚ))
    ∧ annual_return [(0 : Int), 730] ([(100 : ℚ), 121].map some)
      = some ((Real.rpow (((121 : ℚ) : ℝ) / ((100 : ℚ) : ℝ))
          (1 / (((((730 : Int) - (0 : Int) : ℤ) : ℚ) / (365.25 : ℚ) : ℚ) : ℝ)) - 1) * 100) :=
  ⟨(duration_and_returns_formulas [0, 730] [100, 121] (by decide) (by decide) (by decide)).1,
   (duration_and_returns_formulas [0, 730] [100, 121] (by decide) (by decide)
      (by decide)).2.2.1 (by decide)⟩

/-! ## Volatility of a flat series -/

lemma zipWith_replicate_succ (f : ℚ → ℚ → ℚ) (a b : ℚ) (m : ℕ) :
    List.zipWith f (List.replicate (m + 1) a) (List.replicate m b)
      = List.replicate m (f a b) := by
  induction m with
  | zero => rfl
  | succ k ih =>
    rw [show List.replicate (k + 1 + 1) a = a :: List.replicate (k + 1) a from rfl,
      show List.replicate (k + 1) b = b :: List.replicate k b from rfl]
    rw [List.zipWith_cons_cons, ih]
    rfl

lemma daily_returns_replicate (c : ℚ) (m : ℕ) :
    daily_returns (List.replicate (m + 1) c) = List.replicate m (c / c - 1) := by
  unfold daily_returns
  rw [show (List.replicate (m + 1) c).tail = List.replicate m c from by
    rw [show List.replicate (m + 1) c = c :: List.replicate m c from rfl]
    rfl]
  exact zipWith_replicate_succ _ c c m

lemma valid_returns_replicate (c : ℚ) (m : ℕ) :
    valid_returns (List.replicate (m + 1) (some c)) = List.replicate m (c / c - 1) := by
  unfold valid_returns rendement_col
  rw [show List.replicate (m + 1) (some c) = (List.replicate (m + 1) c).map some from by
    rw [List.map_replicate]]
  rw [show List.replicate (m + 1) c = c :: List.replicate m c from rfl]
  rw [pct_change_map_some]
  rw [show ((none :: (daily_returns (c :: List.replicate m c)).map some).filterMap id)
      = ((daily_returns (c :: List.replicate m c)).map some).filterMap id from rfl]
  rw [filterMap_id_map_some]
  rw [show (c :: List.replicate m c) = List.replicate (m + 1) c from rfl]
  exact daily_returns_replicate c m

lemma sample_std_replicate (v : ℝ) (k : ℕ) (hk : 2 ≤ k) :
    sample_std (List.replicate k v) = some 0 := by
  unfold sample_std
  rw [if_neg (by simp only [List.length_replicate]; omega)]
  have hkR : ((k : ℕ) : ℝ) ≠ 0 := Nat.cast_ne_zero.mpr (by omega)
  have hmean : (List.replicate k v).sum / ((List.replicate k v).length : ℝ) = v := by
    rw [List.sum_replicate, List.length_replicate, nsmul_eq_mul]
    field_simp
  rw [show ((List.replicate k v).map fun x => (x - (List.replicate k v).sum /
      ((List.replicate k v).length : ℝ)) ^ 2)
      = (List.replicate k v).map fun x => (x - v) ^ 2 from by rw [hmean]]
  rw [List.map_replicate]
  simp [Real.sqrt_eq_zero', List.sum_replicate]

lemma volatility_replicate (c : ℚ) (n : ℕ) (hn : 3 ≤ n) :
    volatility (List.replicate n (some c)) = some 0 := by
  obtain ⟨m, rfl⟩ : ∃ m, n = m + 1 := ⟨n - 1, by omega⟩
  unfold volatility
  rw [valid_returns_replicate, List.map_replicate,
    sample_std_replicate _ m (by omega)]
  simp

/-- Claim C7 (counterexample): for the two-record constant-close series
the annualized volatility is not 0: it is NaN (the sample standard
deviation of a single daily return is undefined), modelled here as none. -/
theorem flat_two_record_volatility_undefined :
    ¬ (volatility [some (100 : ℚ), some 100] = some 0) := by
  have h : volatility [some (100 : ℚ), some 100] = none := rfl
  rw [h]
  simp

/-- Claim C7 (amended): the Sharpe ratio is the guarded quotient
(annual return / 100 - 0.03) / (volatility / 100) exactly when the
volatility is a strictly positive number, and 0 in every other case
(non-positive or undefined volatility), so the division never runs with
a zero divisor; and for every constant-close series of at least 3
records the volatility is exactly 0 and the Sharpe ratio 0.  (With
exactly 2 records the volatility of a constant series is undefined, NaN,
and the Sharpe ratio is still 0.) -/
theorem sharpe_guard_and_flat_series :
    (∀ (dates : List Int) (closes : List (Option ℚ)) (v : ℝ),
      volatility closes = some v → 0 < v →
      sharpe_ratio dates closes
        = (annual_return dates closes).map (fun ar => (ar / 100 - 3 / 100) / (v / 100)))
    ∧ (∀ (dates : List Int) (closes : List (Option ℚ)) (v : ℝ),
      volatility closes = some v → ¬ 0 < v → sharpe_ratio dates closes = some 0)
    ∧ (∀ (dates : List Int) (closes : List (Option ℚ)),
      volatility closes = none → sharpe_ratio dates closes = some 0)
    ∧ (∀ (dates : List Int) (c : ℚ) (n : ℕ), 3 ≤ n →
      volatility (List.replicate n (some c)) = some 0
      ∧ sharpe_ratio dates (List.replicate n (some c)) = some 0) := by
  refine ⟨?_, ?_, ?_, ?_⟩
  · intro dates closes v hv hpos
    simp [sharpe_ratio, hv, hpos]
  · intro dates closes v hv hneg
    simp [sharpe_ratio, hv, hneg]
  · intro dates closes hv
    simp [sharpe_ratio, hv]
  · intro dates c n hn
    refine ⟨volatility_replicate c n hn, ?_⟩
    simp [sharpe_ratio, volatility_replicate c n hn, lt_irrefl]

/-- Claim C7 (witness). -/
theorem sharpe_guard_and_flat_series_witness :
    volatility (List.replicate 3 (some (100 : ℚ))) = some 0
    ∧ sharpe_ratio [(0 : Int), 1, 2] (List.replicate 3 (some (100 : ℚ))) = some 0 :=
  sharpe_guard_and_flat_series.2.2.2 [0, 1, 2] 100 3 (by decide)

end BRVM
